import Mathlib

/-!
Shallow embedding of the Copyleaks NodeJS client core
(src/Copyleaks.ts): the resilient request executor `Copyleaks.request`,
the token guard `Copyleaks.verifyAuthToken`, the per-operation response
classification chains, and the thin endpoint operations that the claims
mention (`submitFileAsync`, `submitFileOcrAsync`, `deleteAsync`,
`getCreditsBalanceAsync`).

JavaScript numbers used as millisecond timestamps and retry counters are
embedded as `Int`; HTTP status codes as `Nat`.  Thrown exceptions become
`Except` results.  The transport collaborator (axios) is embedded as an
oracle `AxiosRequestConfig → Nat → Except TransportError RawResponse`
giving the outcome of each attempt (the `Nat` is the attempt index).
-/

/-- A raw HTTP response as the transport delivers it: numeric status,
headers and body (`response.status`, `response.headers`, `response.data`). -/
structure RawResponse where
  status : Nat
  headers : List (String × String)
  body : String
deriving DecidableEq, Repr

/-- A raised transport error (an axios error object): an optional received
response (`error.response`, `none` when no response arrived at all) and an
optional error code string (`error.code`, e.g. `some "ETIMEDOUT"`). -/
structure TransportError where
  response : Option RawResponse
  code : Option String
deriving DecidableEq, Repr

/-- A request descriptor (`AxiosRequestConfig`): method, url, optional body,
headers, and the `maxBodyLength: Infinity` transport knob modelled as a flag. -/
structure AxiosRequestConfig where
  method : String
  url : String
  data : Option String
  headers : List (String × String)
  maxBodyLengthInfinity : Bool
deriving DecidableEq, Repr

/-- The retry-eligibility test of `Copyleaks.request` (Copyleaks.ts line 160):
`error.response && ([ 429, 500, 502 ].includes(error.response.status) || error.code === 'ETIMEDOUT')`.
Note the JavaScript parenthesization: the whole disjunction, including the
`ETIMEDOUT` check, sits under the `error.response &&` guard, so an error
without a response is never classified as retryable. -/
def isRetryableError (e : TransportError) : Bool :=
  match e.response with
  | some r => [429, 500, 502].contains r.status || e.code == some "ETIMEDOUT"
  | none => false

/-- The observable trace of one call to `Copyleaks.request`:
the final outcome (returned response or thrown transport error), the number
of transport invocations, the backoff delays awaited (in order), the
remaining-retries counter value logged at each caught error
(`console.log(..., { retries, backoff })`), and the descriptor passed to
the transport at each attempt. -/
structure ReqResult where
  result : Except TransportError RawResponse
  attempts : Nat
  delays : List Nat
  counters : List Int
  sent : List AxiosRequestConfig
deriving Repr

/-- `Copyleaks.request` (Copyleaks.ts lines 151-167), embedded with the
attempt index made explicit so the transport oracle can vary per attempt:
try the transport; on success return the raw response; on a thrown error,
if `retries < 1` rethrow the error, else if the error is retryable wait
`backoff` and recurse with `retries - 1` and `backoff * 2`, else rethrow. -/
def request (requester : AxiosRequestConfig → Nat → Except TransportError RawResponse)
    (config : AxiosRequestConfig) (attemptIdx : Nat)
    (retries : Int := 10) (backoff : Nat := 2000) : ReqResult :=
  match requester config attemptIdx with
  | .ok response => ⟨.ok response, 1, [], [], [config]⟩
  | .error error =>
    if h : retries < 1 then
      ⟨.error error, 1, [], [retries], [config]⟩
    else if isRetryableError error then
      let rest := request requester config (attemptIdx + 1) (retries - 1) (backoff * 2)
      ⟨rest.result, rest.attempts + 1, backoff :: rest.delays,
        retries :: rest.counters, config :: rest.sent⟩
    else
      ⟨.error error, 1, [], [retries], [config]⟩
termination_by retries.toNat
decreasing_by omega

/-- The Copyleaks authentication token (`CopyleaksAuthToken`): the bearer
token string and the parsed value of `new Date(authToken['.expires']).getTime()`
in milliseconds; `none` models a malformed `.expires` whose parse is `NaN`. -/
structure CopyleaksAuthToken where
  access_token : String
  expires : Option Int
deriving DecidableEq, Repr

/-- The Auth-Expired failure (`AuthExipredException` in the source). -/
inductive AuthError where
  | authExpired
deriving DecidableEq, Repr

/-- `Copyleaks.verifyAuthToken` (Copyleaks.ts lines 98-108): compute
`now + timeUntilExpiry` minutes and throw `AuthExipredException` when the
token's parsed expiry instant is `<=` that bound.  When `.expires` does not
parse (`NaN`), the JavaScript comparison `NaN <= x` is false, so the guard
returns normally; that is the `none` branch here. -/
def verifyAuthToken (authToken : CopyleaksAuthToken) (nowMs : Int)
    (timeUntilExpiry : Int := 5) : Except AuthError Unit :=
  match authToken.expires with
  | none => .ok ()
  | some expiresMs =>
    if expiresMs ≤ nowMs + timeUntilExpiry * 60000 then
      .error .authExpired
    else
      .ok ()

/-- Modelled from the spec: `isSuccessStatusCode` lives in `src/utils`,
which is not part of the given sources; the spec fixes the success range
as 200-299 inclusive. -/
def isSuccessStatusCode (status : Nat) : Bool :=
  200 ≤ status && status ≤ 299

/-- Modelled from the spec: `isUnderMaintenanceResponse` lives in
`src/utils`, which is not part of the given sources; the spec's end-to-end
scenario C names 512 as the reserved maintenance status. -/
def isUnderMaintenanceResponse (status : Nat) : Bool :=
  status == 512

/-- Modelled from the spec: `isRateLimitResponse` lives in `src/utils`,
which is not part of the given sources; the spec describes the business
rate-limit signal as a reserved status checked on successfully received
responses, distinct from the transport-level retry on a raised 429, and
does not name a different number, so the code 429 is used. -/
def isRateLimitResponse (status : Nat) : Bool :=
  status == 429

/-- Classified outcome of a received response. -/
inductive Outcome where
  | success
  | underMaintenance
  | rateLimited
  | commandFailure (resp : RawResponse)
deriving DecidableEq, Repr

/-- The classification chain of the operations that include the rate-limit
check (`deleteAsync` lines 333-341, `getCreditsBalanceAsync` lines 400-408):
success range first, then maintenance, then rate limit, then
`CommandException(response)` carrying the full raw response. -/
def classify (resp : RawResponse) : Outcome :=
  if isSuccessStatusCode resp.status then .success
  else if isUnderMaintenanceResponse resp.status then .underMaintenance
  else if isRateLimitResponse resp.status then .rateLimited
  else .commandFailure resp

/-- The classification chain of the submit-style operations, which have no
rate-limit branch (`submitFileAsync` lines 142-148, `submitFileOcrAsync`
lines 195-201): success, then maintenance, then `CommandException(response)`. -/
def classifySubmit (resp : RawResponse) : Outcome :=
  if isSuccessStatusCode resp.status then .success
  else if isUnderMaintenanceResponse resp.status then .underMaintenance
  else .commandFailure resp

/-- The failure an endpoint operation can surface to its caller: the thrown
exception classes of the source (`AuthExipredException`,
`UnderMaintenanceException`, `RateLimitException`, `CommandException(response)`),
a propagated transport error, or a generic `Error(message, \x7b cause \x7d)`
wrapper as built by `submitFileAsync`. -/
inductive OpError where
  | authExpired
  | underMaintenance
  | rateLimited
  | command (resp : RawResponse)
  | transport (e : TransportError)
  | wrapped (message : String) (cause : OpError)
deriving DecidableEq, Repr

/-- The observable trace of one endpoint-operation call: its outcome, how
many transport invocations occurred, and the backoff delays awaited. -/
structure OpOutcome where
  result : Except OpError Unit
  transportAttempts : Nat
  delays : List Nat
deriving Repr

/-- Lift a classified outcome to the operation result (return on success,
throw the matching exception otherwise). -/
def outcomeExcept (o : Outcome) : Except OpError Unit :=
  match o with
  | .success => .ok ()
  | .underMaintenance => .error .underMaintenance
  | .rateLimited => .error .rateLimited
  | .commandFailure resp => .error (.command resp)

/-- `Copyleaks.deleteAsync` (Copyleaks.ts lines 322-342): verify the token
(throwing `AuthExipredException` aborts before any transport call), send the
PATCH descriptor through `request` with the default retry budget, propagate
a thrown transport error unchanged, and otherwise classify the response
through the success / maintenance / rate-limit / command chain. -/
def deleteAsync (product : String) (authToken : CopyleaksAuthToken) (nowMs : Int)
    (payloads : Option String)
    (transport : AxiosRequestConfig → Nat → Except TransportError RawResponse) :
    OpOutcome :=
  match verifyAuthToken authToken nowMs with
  | .error _ => ⟨.error .authExpired, 0, []⟩
  | .ok _ =>
    let config : AxiosRequestConfig :=
      { method := "PATCH"
        url := "/v3.1/" ++ product ++ "/delete"
        data := payloads
        headers := [("Authorization", "Bearer " ++ authToken.access_token)]
        maxBodyLengthInfinity := true }
    let r := request transport config 0
    match r.result with
    | .error e => ⟨.error (.transport e), r.attempts, r.delays⟩
    | .ok resp => ⟨outcomeExcept (classify resp), r.attempts, r.delays⟩

/-- `Copyleaks.submitFileAsync` (Copyleaks.ts lines 126-149): verify the
token, send the PUT descriptor through `request`; a thrown transport-layer
error is caught and rethrown wrapped in a generic
`Error("Failed to submit file...", \x7b cause: error \x7d)`; a received
response is classified through the success / maintenance / command chain
(no rate-limit branch). -/
def submitFileAsync (product : String) (authToken : CopyleaksAuthToken) (nowMs : Int)
    (scanId : String) (submission : Option String)
    (transport : AxiosRequestConfig → Nat → Except TransportError RawResponse) :
    OpOutcome :=
  match verifyAuthToken authToken nowMs with
  | .error _ => ⟨.error .authExpired, 0, []⟩
  | .ok _ =>
    let config : AxiosRequestConfig :=
      { method := "PUT"
        url := "/v3/" ++ product ++ "/submit/file/" ++ scanId
        data := submission
        headers := [("Authorization", "Bearer " ++ authToken.access_token)]
        maxBodyLengthInfinity := true }
    let r := request transport config 0
    match r.result with
    | .error e =>
      ⟨.error (.wrapped ("Failed to submit file to Copyleaks API for scan with ID "
        ++ scanId ++ ".") (.transport e)), r.attempts, r.delays⟩
    | .ok resp => ⟨outcomeExcept (classifySubmit resp), r.attempts, r.delays⟩

/-- `Copyleaks.submitFileOcrAsync` (Copyleaks.ts lines 185-202): verify the
token, send the PUT descriptor through `request` (no catch: transport errors
propagate unchanged), and classify the response through the success /
maintenance / command chain (no rate-limit branch). -/
def submitFileOcrAsync (product : String) (authToken : CopyleaksAuthToken) (nowMs : Int)
    (scanId : String) (submission : Option String)
    (transport : AxiosRequestConfig → Nat → Except TransportError RawResponse) :
    OpOutcome :=
  match verifyAuthToken authToken nowMs with
  | .error _ => ⟨.error .authExpired, 0, []⟩
  | .ok _ =>
    let config : AxiosRequestConfig :=
      { method := "PUT"
        url := "/v3/" ++ product ++ "/submit/ocr/" ++ scanId
        data := submission
        headers := [("Authorization", "Bearer " ++ authToken.access_token)]
        maxBodyLengthInfinity := true }
    let r := request transport config 0
    match r.result with
    | .error e => ⟨.error (.transport e), r.attempts, r.delays⟩
    | .ok resp => ⟨outcomeExcept (classifySubmit resp), r.attempts, r.delays⟩

/-- `Copyleaks.getCreditsBalanceAsync` (Copyleaks.ts lines 392-409): verify
the token, send the GET descriptor through `request` (transport errors
propagate unchanged), and classify the response through the success /
maintenance / rate-limit / command chain. -/
def getCreditsBalanceAsync (product : String) (authToken : CopyleaksAuthToken)
    (nowMs : Int)
    (transport : AxiosRequestConfig → Nat → Except TransportError RawResponse) :
    OpOutcome :=
  match verifyAuthToken authToken nowMs with
  | .error _ => ⟨.error .authExpired, 0, []⟩
  | .ok _ =>
    let config : AxiosRequestConfig :=
      { method := "GET"
        url := "/v3/" ++ product ++ "/credits"
        data := none
        headers := [("Authorization", "Bearer " ++ authToken.access_token)]
        maxBodyLengthInfinity := false }
    let r := request transport config 0
    match r.result with
    | .error e => ⟨.error (.transport e), r.attempts, r.delays⟩
    | .ok resp => ⟨outcomeExcept (classify resp), r.attempts, r.delays⟩

/-- The expected sequence of backoff delays for `N` consecutive retries
starting from initial backoff `b`: `b`, then `b * 2`, then `b * 4`, ...
(the executor doubles the backoff before each recursive call). -/
def backoffDelays : Nat → Nat → List Nat
  | _, 0 => []
  | b, M + 1 => b :: backoffDelays (b * 2) M

/-- The expected sequence of remaining-retries counter values logged over a
run that exhausts a budget of `N` retries: `N`, `N - 1`, ..., `1`, `0`. -/
def countersTrace : Nat → List Int
  | 0 => [0]
  | M + 1 => ((M : Int) + 1) :: countersTrace M

/-- A fixed concrete request descriptor used in concrete evaluations. -/
def cfg0 : AxiosRequestConfig :=
  ⟨"GET", "/v3/education/credits", none, [("Authorization", "Bearer tok")], false⟩

/-- A retryable transport error: a received response with status 500. -/
def e500 : TransportError := ⟨some ⟨500, [], "server error"⟩, none⟩

/-- A constant error stream raising `e500` on every attempt. -/
def errsAll500 : Nat → TransportError := fun _ => e500

/-- A transport that raises the retryable `e500` on every attempt. -/
def tAllFail : AxiosRequestConfig → Nat → Except TransportError RawResponse :=
  fun _ k => .error (errsAll500 k)

/-- A connection-timeout transport error: `error.code = 'ETIMEDOUT'` with no
response received at all (`error.response` undefined). -/
def eTimedOut : TransportError := ⟨none, some "ETIMEDOUT"⟩

/-- A transport that times out with no response on every attempt. -/
def tTimeout : AxiosRequestConfig → Nat → Except TransportError RawResponse :=
  fun _ _ => .error eTimedOut

/-- A non-retryable transport error carrying a 404 response. -/
def e404 : TransportError := ⟨some ⟨404, [], "not found"⟩, none⟩

/-- A transport that raises the non-retryable `e404` on every attempt. -/
def t404 : AxiosRequestConfig → Nat → Except TransportError RawResponse :=
  fun _ _ => .error e404

/-- A received response carrying the reserved business rate-limit status. -/
def resp429 : RawResponse := ⟨429, [("Retry-After", "60")], "rate limited"⟩

/-- A transport that returns the rate-limit response without raising. -/
def t429 : AxiosRequestConfig → Nat → Except TransportError RawResponse :=
  fun _ _ => .ok resp429

/-- A received response carrying the reserved under-maintenance status 512. -/
def resp512 : RawResponse := ⟨512, [], "maintenance"⟩

/-- A transport that returns the maintenance response without raising. -/
def t512 : AxiosRequestConfig → Nat → Except TransportError RawResponse :=
  fun _ _ => .ok resp512

/-- A plain success response. -/
def resp200 : RawResponse := ⟨200, [], "ok"⟩

/-- A transport that returns the success response without raising. -/
def tOk : AxiosRequestConfig → Nat → Except TransportError RawResponse :=
  fun _ _ => .ok resp200

/-- A token that is far from expiry at `now = 0` (expires at 10^9 ms). -/
def tokValid : CopyleaksAuthToken := ⟨"tok", some 1000000000⟩

/-- Unfolding of `request` when the transport returns a response: one single
attempt, no delay, no retry, the raw response returned whatever its status. -/
theorem request_step_ok (t : AxiosRequestConfig → Nat → Except TransportError RawResponse)
    (cfg : AxiosRequestConfig) (i : Nat) (retries : Int) (b : Nat)
    (r : RawResponse) (ht : t cfg i = .ok r) :
    request t cfg i retries b = ⟨.ok r, 1, [], [], [cfg]⟩ := by
  rw [request.eq_def t cfg i retries b, ht]

/-- Unfolding of `request` when the transport raises a retryable error and
attempts remain: wait `b`, then recurse with `retries - 1` and `b * 2`. -/
theorem request_step_retry (t : AxiosRequestConfig → Nat → Except TransportError RawResponse)
    (cfg : AxiosRequestConfig) (i : Nat) (retries : Int) (b : Nat)
    (e : TransportError) (ht : t cfg i = .error e)
    (h1 : ¬ retries < 1) (h2 : isRetryableError e = true) :
    request t cfg i retries b =
      ⟨(request t cfg (i + 1) (retries - 1) (b * 2)).result,
       (request t cfg (i + 1) (retries - 1) (b * 2)).attempts + 1,
       b :: (request t cfg (i + 1) (retries - 1) (b * 2)).delays,
       retries :: (request t cfg (i + 1) (retries - 1) (b * 2)).counters,
       cfg :: (request t cfg (i + 1) (retries - 1) (b * 2)).sent⟩ := by
  rw [request.eq_def t cfg i retries b, ht]
  simp [h1, h2]

/-- Unfolding of `request` when the transport raises with the retry budget at
the floor (`retries < 1`): the error is rethrown unchanged. -/
theorem request_step_floor (t : AxiosRequestConfig → Nat → Except TransportError RawResponse)
    (cfg : AxiosRequestConfig) (i : Nat) (retries : Int) (b : Nat)
    (e : TransportError) (ht : t cfg i = .error e)
    (h1 : retries < 1) :
    request t cfg i retries b = ⟨.error e, 1, [], [retries], [cfg]⟩ := by
  rw [request.eq_def t cfg i retries b, ht]
  simp [h1]

/-- Unfolding of `request` when the transport raises a non-retryable error:
the error is rethrown unchanged with no delay and no further attempt. -/
theorem request_step_nonretry (t : AxiosRequestConfig → Nat → Except TransportError RawResponse)
    (cfg : AxiosRequestConfig) (i : Nat) (retries : Int) (b : Nat)
    (e : TransportError) (ht : t cfg i = .error e)
    (h1 : ¬ retries < 1) (h2 : isRetryableError e = false) :
    request t cfg i retries b = ⟨.error e, 1, [], [retries], [cfg]⟩ := by
  rw [request.eq_def t cfg i retries b, ht]
  simp [h1, h2]

/-- Full trace of `request` against a transport that raises a retryable error
on every attempt, for a budget of `N` further attempts: the last error is the
final outcome, `N + 1` attempts happen, the delays double from `b`, the
logged counters count down from `N`, and the same descriptor is sent each
time. -/
theorem request_allRetryable (errs : Nat → TransportError)
    (h : ∀ k, isRetryableError (errs k) = true) (cfg : AxiosRequestConfig) :
    ∀ (N i b : Nat),
    request (fun _ k => .error (errs k)) cfg i (N : Int) b =
      ⟨.error (errs (i + N)), N + 1, backoffDelays b N, countersTrace N,
        List.replicate (N + 1) cfg⟩ := by
  intro N
  induction N with
  | zero =>
    intro i b
    rw [request_step_floor _ cfg i _ b (errs i) rfl (by simp)]
    simp [countersTrace, backoffDelays]
  | succ M ih =>
    intro i b
    rw [request_step_retry _ cfg i _ b (errs i) rfl (by push_cast; omega) (h i)]
    have hc : ((M + 1 : Nat) : Int) - 1 = ((M : Nat) : Int) := by push_cast; ring
    rw [hc, ih (i + 1) (b * 2)]
    have hii : i + 1 + M = i + (M + 1) := by omega
    simp [backoffDelays, countersTrace, List.replicate_succ, hii, Nat.cast_add, Nat.cast_one]

/-- `backoffDelays b N` has exactly `N` entries, one per retry. -/
theorem backoffDelays_length : ∀ (N b : Nat), (backoffDelays b N).length = N := by
  intro N
  induction N with
  | zero => intro b; simp [backoffDelays]
  | succ M ih => intro b; simp [backoffDelays, ih]

/-- The `k`-th backoff delay (0-indexed) equals `b * 2 ^ k`. -/
theorem backoffDelays_getElem :
    ∀ (N b k : Nat), k < N → (backoffDelays b N)[k]? = some (b * 2 ^ k) := by
  intro N
  induction N with
  | zero => intro b k hk; omega
  | succ M ih =>
    intro b k hk
    match k with
    | 0 => simp [backoffDelays]
    | j + 1 =>
      have := ih (b * 2) j (by omega)
      simp [backoffDelays, this, pow_succ]
      ring

/-- Every logged remaining-retries counter value in a full countdown from `N`
is nonnegative. -/
theorem countersTrace_nonneg : ∀ (N : Nat), ∀ c ∈ countersTrace N, 0 ≤ c := by
  intro N
  induction N with
  | zero => intro c hc; simp [countersTrace] at hc; omega
  | succ M ih =>
    intro c hc
    simp only [countersTrace, List.mem_cons] at hc
    rcases hc with h | h
    · omega
    · exact ih c h

/-- A full countdown from `N` logs `N + 1` counter values, one per attempt. -/
theorem countersTrace_length : ∀ (N : Nat), (countersTrace N).length = N + 1 := by
  intro N
  induction N with
  | zero => simp [countersTrace]
  | succ M ih => simp [countersTrace, ih]

/-- For every transport, budget and backoff, the descriptors sent over the
attempts of one `request` call are exactly `attempts` copies of the original
descriptor: the executor replays the identical descriptor on every retry. -/
theorem request_sent_replicate
    (t : AxiosRequestConfig → Nat → Except TransportError RawResponse) :
    ∀ (n : Nat) (retries : Int), retries.toNat = n → ∀ (cfg : AxiosRequestConfig) (i b : Nat),
      (request t cfg i retries b).sent =
        List.replicate (request t cfg i retries b).attempts cfg := by
  intro n
  induction n using Nat.strong_induction_on with
  | _ n ih =>
    intro retries hn cfg i b
    cases hres : t cfg i with
    | ok r =>
      rw [request_step_ok t cfg i retries b r hres]
      rfl
    | error e =>
      by_cases h1 : retries < 1
      · rw [request_step_floor t cfg i retries b e hres h1]
        rfl
      · cases h2 : isRetryableError e with
        | false =>
          rw [request_step_nonretry t cfg i retries b e hres h1 h2]
          rfl
        | true =>
          rw [request_step_retry t cfg i retries b e hres h1 h2]
          have hrec := ih (retries - 1).toNat (by omega) (retries - 1) rfl cfg (i + 1) (b * 2)
          simp [hrec, List.replicate_succ]

/-- Against a transport that raises the same error `e` on every attempt, the
final outcome of `request` is `e` itself, whether the retry budget was
exhausted (retryable `e`) or the error short-circuited (non-retryable `e`). -/
theorem request_result_const_error
    (t : AxiosRequestConfig → Nat → Except TransportError RawResponse)
    (e : TransportError) (ht : ∀ c k, t c k = .error e) :
    ∀ (n : Nat) (retries : Int), retries.toNat = n → ∀ (cfg : AxiosRequestConfig) (i b : Nat),
      (request t cfg i retries b).result = .error e := by
  intro n
  induction n using Nat.strong_induction_on with
  | _ n ih =>
    intro retries hn cfg i b
    by_cases h1 : retries < 1
    · rw [request_step_floor t cfg i retries b e (ht cfg i) h1]
    · cases h2 : isRetryableError e with
      | false => rw [request_step_nonretry t cfg i retries b e (ht cfg i) h1 h2]
      | true =>
        rw [request_step_retry t cfg i retries b e (ht cfg i) h1 h2]
        exact ih (retries - 1).toNat (by omega) (retries - 1) rfl cfg (i + 1) (b * 2)

/-- Claim C1: with a retry budget of `N` (default 10) and a transport that
raises a retryable error on every attempt, `request` makes exactly `N + 1`
transport attempts (1 initial + N retries), every remaining-retries counter
value observed along the way is nonnegative, and the final outcome is the
transport error observed on the last attempt, propagated unchanged. -/
theorem retry_budget_exact_attempts (N b : Nat) (cfg : AxiosRequestConfig)
    (errs : Nat → TransportError)
    (h : ∀ k, isRetryableError (errs k) = true) :
    (request (fun _ k => .error (errs k)) cfg 0 (N : Int) b).attempts = N + 1 ∧
    (∀ c ∈ (request (fun _ k => .error (errs k)) cfg 0 (N : Int) b).counters, 0 ≤ c) ∧
    (request (fun _ k => .error (errs k)) cfg 0 (N : Int) b).result = .error (errs N) := by
  rw [request_allRetryable errs h cfg N 0 b]
  exact ⟨rfl, countersTrace_nonneg N, by simp⟩

/-- Witness for C1 at `N = 2`, `b = 100` with a constant retryable 500
error: three attempts are made and the last error is surfaced unchanged. -/
theorem retry_budget_exact_attempts_witness :
    isRetryableError e500 = true ∧
    (request tAllFail cfg0 0 ((2 : Nat) : Int) 100).attempts = 2 + 1 ∧
    (request tAllFail cfg0 0 ((2 : Nat) : Int) 100).result = .error (errsAll500 2) :=
  ⟨by decide,
   (retry_budget_exact_attempts 2 100 cfg0 errsAll500 (fun _ => rfl)).1,
   (retry_budget_exact_attempts 2 100 cfg0 errsAll500 (fun _ => rfl)).2.2⟩

/-- Claim C2, behavior of the code at the failing input: a connection-timeout
error (`error.code = 'ETIMEDOUT'`) that carries no response is NOT classified
as retryable — the `ETIMEDOUT` disjunct sits inside the `error.response &&`
guard — so `request` rethrows it after a single attempt with no delay,
contrary to the claim that such errors are retried. -/
theorem timeout_without_response_not_retried :
    isRetryableError eTimedOut = false ∧
    request tTimeout cfg0 0 10 2000 = ⟨.error eTimedOut, 1, [], [10], [cfg0]⟩ := by
  refine ⟨by decide, ?_⟩
  simp [request, isRetryableError, tTimeout, eTimedOut]

/-- Claim C3: with always-retryable failures and initial backoff `b`, the
delay waited before retry attempt `k + 1` equals `b * 2 ^ (k - 1)` for
`k = 1..N`: the first retry is preceded by exactly `b` and the backoff
doubles after every retry. -/
theorem backoff_doubling (N b : Nat) (cfg : AxiosRequestConfig)
    (errs : Nat → TransportError)
    (h : ∀ k, isRetryableError (errs k) = true) :
    (request (fun _ k => .error (errs k)) cfg 0 (N : Int) b).delays.length = N ∧
    ∀ k, 1 ≤ k → k ≤ N →
      (request (fun _ k => .error (errs k)) cfg 0 (N : Int) b).delays[k - 1]? =
        some (b * 2 ^ (k - 1)) := by
  rw [request_allRetryable errs h cfg N 0 b]
  exact ⟨backoffDelays_length N b,
    fun k h1 h2 => backoffDelays_getElem N b (k - 1) (by omega)⟩

/-- Witness for C3 at `N = 2`, `b = 100`: the two delays are 100 ms then
200 ms. -/
theorem backoff_doubling_witness :
    isRetryableError e500 = true ∧
    (request tAllFail cfg0 0 ((2 : Nat) : Int) 100).delays.length = 2 ∧
    (request tAllFail cfg0 0 ((2 : Nat) : Int) 100).delays[1 - 1]? = some (100 * 2 ^ (1 - 1)) ∧
    (request tAllFail cfg0 0 ((2 : Nat) : Int) 100).delays[2 - 1]? = some (100 * 2 ^ (2 - 1)) :=
  ⟨by decide,
   (backoff_doubling 2 100 cfg0 errsAll500 (fun _ => rfl)).1,
   (backoff_doubling 2 100 cfg0 errsAll500 (fun _ => rfl)).2 1 (by decide) (by decide),
   (backoff_doubling 2 100 cfg0 errsAll500 (fun _ => rfl)).2 2 (by decide) (by decide)⟩

/-- Claim C4: for a credential with a well-formed expiry instant, the token
guard returns normally exactly when the expiry is strictly after
`now + m` minutes, and fails with the Auth-Expired condition exactly when the
expiry is at or before that adjusted now. -/
theorem token_guard_verify (e nowMs m : Int) (tok : String) :
    (verifyAuthToken ⟨tok, some e⟩ nowMs m = .ok () ↔ nowMs + m * 60000 < e) ∧
    (verifyAuthToken ⟨tok, some e⟩ nowMs m = .error .authExpired ↔ e ≤ nowMs + m * 60000) := by
  simp only [verifyAuthToken]
  split_ifs with h
  · refine ⟨⟨fun hc => by simp at hc, fun hc => by omega⟩, ⟨fun _ => h, fun _ => rfl⟩⟩
  · refine ⟨⟨fun _ => by omega, fun _ => rfl⟩, ⟨fun hc => by simp at hc, fun hc => by omega⟩⟩

/-- Counterexample for C5: the claim says every public operation maps the
reserved business rate-limit status to the RateLimit failure, but the
submit-style operations have no rate-limit branch: `submitFileOcrAsync`
classifies a received rate-limit response as a generic CommandException. -/
theorem ratelimit_branch_missing_counterexample :
    isRateLimitResponse resp429.status = true ∧
    (submitFileOcrAsync "education" tokValid 0 "scan1" none t429).result =
      .error (.command resp429) ∧
    OpError.command resp429 ≠ OpError.rateLimited := by
  refine ⟨by decide, ?_, by decide⟩
  simp [submitFileOcrAsync, verifyAuthToken, tokValid, request, t429, resp429,
    classifySubmit, outcomeExcept, isSuccessStatusCode, isUnderMaintenanceResponse]

/-- Claim C5 (amended): statuses in 200-299 classify as success in every
chain; the reserved maintenance status is checked next in every chain; the
reserved rate-limit status yields the RateLimit outcome only in the chains
that include the rate-limit check (delete, credits, usages, release notes,
file types, OCR languages), while the submit/login/export/start/webhook
chains classify it as a CommandException carrying the full raw response;
every remaining status yields a CommandException carrying the full raw
response in both chains. -/
theorem classification_chains (resp : RawResponse) :
    (isSuccessStatusCode resp.status = true →
      classify resp = .success ∧ classifySubmit resp = .success) ∧
    (isSuccessStatusCode resp.status = false →
      isUnderMaintenanceResponse resp.status = true →
      classify resp = .underMaintenance ∧ classifySubmit resp = .underMaintenance) ∧
    (isSuccessStatusCode resp.status = false →
      isUnderMaintenanceResponse resp.status = false →
      isRateLimitResponse resp.status = true →
      classify resp = .rateLimited ∧ classifySubmit resp = .commandFailure resp) ∧
    (isSuccessStatusCode resp.status = false →
      isUnderMaintenanceResponse resp.status = false →
      isRateLimitResponse resp.status = false →
      classify resp = .commandFailure resp ∧ classifySubmit resp = .commandFailure resp) := by
  refine ⟨fun h1 => ?_, fun h1 h2 => ?_, fun h1 h2 h3 => ?_, fun h1 h2 h3 => ?_⟩
  · simp [classify, classifySubmit, h1]
  · simp [classify, classifySubmit, h1, h2]
  · simp [classify, classifySubmit, h1, h2, h3]
  · simp [classify, classifySubmit, h1, h2, h3]

/-- Witness for C5 (amended) at the reserved rate-limit status: the chain
with the rate-limit check yields RateLimited, the submit chain yields a
CommandException carrying the response. -/
theorem classification_chains_witness :
    isRateLimitResponse resp429.status = true ∧
    (classify resp429 = .rateLimited ∧ classifySubmit resp429 = .commandFailure resp429) :=
  ⟨by decide, (classification_chains resp429).2.2.1 (by decide) (by decide) (by decide)⟩

/-- Claim C6: when the transport returns a response without raising —
whatever its status — `request` performs exactly one attempt from that
point, waits no delay, and hands the raw response back unchanged for
classification; only raised errors enter the retry loop. -/
theorem response_stops_retrying
    (t : AxiosRequestConfig → Nat → Except TransportError RawResponse)
    (cfg : AxiosRequestConfig) (i : Nat) (retries : Int) (b : Nat)
    (r : RawResponse) (ht : t cfg i = .ok r) :
    request t cfg i retries b = ⟨.ok r, 1, [], [], [cfg]⟩ :=
  request_step_ok t cfg i retries b r ht

/-- Witness for C6 with a status-512 (maintenance) response under the
default budget: one attempt, zero retries, zero delays, response returned. -/
theorem response_stops_retrying_witness :
    t512 cfg0 0 = .ok resp512 ∧
    request t512 cfg0 0 10 2000 = ⟨.ok resp512, 1, [], [], [cfg0]⟩ :=
  ⟨rfl, response_stops_retrying t512 cfg0 0 10 2000 resp512 rfl⟩

/-- Claim C7: calling an authenticated operation with a credential whose
expiry is at or before `now + 5` minutes fails with the Auth-Expired
condition before any transport call occurs: zero transport attempts and
zero delays, for `deleteAsync` and `submitFileAsync` alike. -/
theorem auth_expired_blocks_transport (tokStr : String) (e nowMs : Int)
    (product scanId : String) (payloads submission : Option String)
    (transport : AxiosRequestConfig → Nat → Except TransportError RawResponse)
    (h : e ≤ nowMs + 5 * 60000) :
    deleteAsync product ⟨tokStr, some e⟩ nowMs payloads transport =
      ⟨.error .authExpired, 0, []⟩ ∧
    submitFileAsync product ⟨tokStr, some e⟩ nowMs scanId submission transport =
      ⟨.error .authExpired, 0, []⟩ := by
  have hv : verifyAuthToken ⟨tokStr, some e⟩ nowMs 5 = .error .authExpired := by
    simp only [verifyAuthToken]
    split_ifs with hh
    · rfl
    · exact absurd h hh
  exact ⟨by simp [deleteAsync, hv], by simp [submitFileAsync, hv]⟩

/-- Witness for C7, the spec's scenario B: the credential expires at T = 0,
the call happens at T - 3 minutes with the 5-minute margin, and both
operations fail with Auth-Expired having sent zero transport requests. -/
theorem auth_expired_blocks_transport_witness :
    (0 : Int) ≤ -180000 + 5 * 60000 ∧
    deleteAsync "education" ⟨"tok", some 0⟩ (-180000) none tOk =
      ⟨.error .authExpired, 0, []⟩ ∧
    submitFileAsync "education" ⟨"tok", some 0⟩ (-180000) "scan1" none tOk =
      ⟨.error .authExpired, 0, []⟩ :=
  ⟨by decide,
   (auth_expired_blocks_transport "tok" 0 (-180000) "education" "scan1" none none tOk
     (by decide)).1,
   (auth_expired_blocks_transport "tok" 0 (-180000) "education" "scan1" none none tOk
     (by decide)).2⟩

/-- Counterexample for C8: the claim says no public operation ever wraps an
executor error in a different error type, but `submitFileAsync` catches the
executor's error and rethrows it wrapped in a generic `Error` (with the
original as its `cause`): with a non-retryable 404 transport error the
caller receives the wrapper, not the original error. -/
theorem submitfile_wraps_error_counterexample :
    (submitFileAsync "education" tokValid 0 "scan1" none t404).result =
      .error (.wrapped ("Failed to submit file to Copyleaks API for scan with ID "
        ++ "scan1" ++ ".") (.transport e404)) ∧
    OpError.wrapped ("Failed to submit file to Copyleaks API for scan with ID "
        ++ "scan1" ++ ".") (.transport e404) ≠ OpError.transport e404 := by
  refine ⟨?_, by decide⟩
  simp [submitFileAsync, verifyAuthToken, tokValid, request, isRetryableError, t404, e404]

/-- Claim C8 (amended): when the executor fails — exhausted retries or a
non-retryable transport error — `deleteAsync`, `submitFileOcrAsync` and
`getCreditsBalanceAsync` surface the transport error to their caller
unchanged; `submitFileAsync` alone rethrows it wrapped in a generic Error
whose cause is the unchanged original, so the diagnostic detail is still
carried inside the wrapper. -/
theorem executor_error_propagation (e : TransportError)
    (tokStr product scanId : String) (expiry nowMs : Int)
    (payloads submission : Option String)
    (transport : AxiosRequestConfig → Nat → Except TransportError RawResponse)
    (hok : nowMs + 5 * 60000 < expiry)
    (ht : ∀ c k, transport c k = .error e) :
    (deleteAsync product ⟨tokStr, some expiry⟩ nowMs payloads transport).result =
      .error (.transport e) ∧
    (submitFileOcrAsync product ⟨tokStr, some expiry⟩ nowMs scanId submission
      transport).result = .error (.transport e) ∧
    (getCreditsBalanceAsync product ⟨tokStr, some expiry⟩ nowMs transport).result =
      .error (.transport e) ∧
    (submitFileAsync product ⟨tokStr, some expiry⟩ nowMs scanId submission
      transport).result =
      .error (.wrapped ("Failed to submit file to Copyleaks API for scan with ID "
        ++ scanId ++ ".") (.transport e)) := by
  have hv : verifyAuthToken ⟨tokStr, some expiry⟩ nowMs 5 = .ok () := by
    simp only [verifyAuthToken]
    split_ifs with hh
    · exact absurd hh (by omega)
    · rfl
  have hr := request_result_const_error transport e ht 10 10 rfl
  refine ⟨?_, ?_, ?_, ?_⟩ <;>
    simp [deleteAsync, submitFileOcrAsync, getCreditsBalanceAsync, submitFileAsync, hv, hr]

/-- Witness for C8 (amended) with a constant 404 transport error and a valid
token: the three non-wrapping operations surface the error unchanged and
`submitFileAsync` surfaces the wrapper around it. -/
theorem executor_error_propagation_witness :
    (0 : Int) + 5 * 60000 < 1000000000 ∧
    (deleteAsync "education" tokValid 0 none t404).result = .error (.transport e404) ∧
    (submitFileOcrAsync "education" tokValid 0 "scan1" none t404).result =
      .error (.transport e404) ∧
    (getCreditsBalanceAsync "education" tokValid 0 t404).result =
      .error (.transport e404) ∧
    (submitFileAsync "education" tokValid 0 "scan1" none t404).result =
      .error (.wrapped ("Failed to submit file to Copyleaks API for scan with ID "
        ++ "scan1" ++ ".") (.transport e404)) :=
  ⟨by decide,
   executor_error_propagation e404 "tok" "education" "scan1" 1000000000 0 none none t404
     (by decide) (fun _ _ => rfl)⟩

/-- Claim C9: for every transport, descriptor, budget and backoff, the
descriptor received by the transport at every attempt of one `request` call
is the identical original descriptor: the executor never modifies it and
replays the same descriptor verbatim on every retry. -/
theorem descriptor_replayed_verbatim
    (t : AxiosRequestConfig → Nat → Except TransportError RawResponse)
    (cfg : AxiosRequestConfig) (i : Nat) (retries : Int) (b : Nat) :
    (request t cfg i retries b).sent =
      List.replicate (request t cfg i retries b).attempts cfg :=
  request_sent_replicate t retries.toNat retries rfl cfg i b

/-- Claim C10: a credential whose `.expires` does not parse to a valid
timestamp (the parsed value is `NaN`, embedded as `none`) passes the token
guard for every now and every safety margin: `NaN <= x` is false in
JavaScript, so the malformed expiry is treated as not expired. -/
theorem malformed_expiry_treated_valid (tok : String) (nowMs m : Int) :
    verifyAuthToken ⟨tok, none⟩ nowMs m = .ok () := rfl
